import Mathlib

/-!
Verification development for the HDB resale-market insights pipeline.

This file gives a shallow embedding, over exact rational / integer
arithmetic, of the parts of the TypeScript source that the verified
properties concern:

* the value-scoring engine (src/lib/scoring.ts);
* the statistics recomputation (updateStatistics in src/pages/api/cron.ts)
  and the per-month median selection of src/pages/api/comparison.ts;
* the paginated watermark-filtered fetch loop, the idempotent batch
  insert, and the authorization gate of the sync orchestrator
  (src/pages/api/cron.ts);
* the amenity-count client (getNearbyAmenities in src/lib/onemap.ts and
  its superseded duplicate variant).

JavaScript numbers are modelled as rationals (the formulas involved are
exact at the inputs of interest, and every divergence established below is
far larger than double-precision error); database month strings are kept
as strings with the lexicographic order JavaScript uses on them.
-/

/-- JavaScript Math.round: nearest integer, ties toward positive infinity. -/
def jsRound (q : ℚ) : ℤ := ⌊q + 1/2⌋

/-- SQLite ROUND to zero decimals: nearest integer, ties away from zero. -/
def sqlRound (q : ℚ) : ℤ := if 0 ≤ q then ⌊q + 1/2⌋ else -⌊-q + 1/2⌋

/-- SQLite ROUND(x, 2): two decimal places. -/
def sqlRound2 (q : ℚ) : ℚ := (sqlRound (q * 100) : ℚ) / 100

/-- JavaScript string comparison a < b (lexicographic over code units;
for the ASCII month keys used here this is the order on the char list).
Packaged as a Bool so that it evaluates in the kernel. -/
def strLtB (a b : String) : Bool := decide (a.toList < b.toList)

/-- JavaScript string comparison a >= b, i.e. not (a < b). -/
def strGeB (a b : String) : Bool := ! strLtB a b

/- ------------------------------------------------------------------ -/
/- Scoring engine, from src/lib/scoring.ts.                            -/
/- ------------------------------------------------------------------ -/

/-- Weights record of the scoring engine (interface ScoreWeights). -/
structure ScoreWeights where
  price : ℚ
  location : ℚ
  lease : ℚ
  appreciation : ℚ
  amenities : ℚ
deriving Repr, DecidableEq

/-- DEFAULT_WEIGHTS of src/lib/scoring.ts: price .30, location .25,
lease .20, appreciation .15, amenities .10. -/
def DEFAULT_WEIGHTS : ScoreWeights :=
  { price := 3/10, location := 1/4, lease := 1/5, appreciation := 3/20, amenities := 1/10 }

/-- Amenity counts handed to the scoring engine. -/
structure AmenityCounts where
  schools : ℤ
  malls : ℤ
  parks : ℤ
  hawkers : ℤ
deriving Repr, DecidableEq

/-- Input record of calculateTotalScore (interface UnitData); the two
optional fields are optional in the source as well. -/
structure UnitData where
  resale_price : ℚ
  town_median : ℚ
  mrt_distance : ℚ
  remaining_lease_years : ℚ
  price_history : Option (List ℚ)
  amenities : Option AmenityCounts
deriving Repr, DecidableEq

/-- Result record of calculateTotalScore (interface ScoreBreakdown). -/
structure ScoreBreakdown where
  total_score : ℚ
  price_score : ℚ
  location_score : ℚ
  lease_score : ℚ
  appreciation_score : ℚ
  amenities_score : ℚ
deriving Repr, DecidableEq

/-- calculatePriceScore of src/lib/scoring.ts: neutral 50 when the town
median is missing or nonpositive, else piecewise linear in the
price-to-median ratio with Math.round on the interior branch. -/
def calculatePriceScore (unitPrice townMedian : ℚ) : ℚ :=
  if townMedian ≤ 0 then 50
  else
    let ratio := unitPrice / townMedian
    if ratio ≤ 7/10 then 100
    else if 3/2 ≤ ratio then 0
    else (jsRound (100 - (ratio - 7/10) * 125) : ℚ)

/-- calculateLocationScore of src/lib/scoring.ts. -/
def calculateLocationScore (mrtDistance : ℚ) : ℚ :=
  if mrtDistance ≤ 200 then 100
  else if 1000 ≤ mrtDistance then 0
  else (jsRound (100 - (mrtDistance - 200) / 8) : ℚ)

/-- calculateLeaseScore of src/lib/scoring.ts. -/
def calculateLeaseScore (remainingYears : ℚ) : ℚ :=
  if 90 ≤ remainingYears then 100
  else if remainingYears < 30 then 0
  else (jsRound ((remainingYears - 30) * (167/100)) : ℚ)

/-- The annualized growth rate computed inside calculateAppreciationScore
of src/lib/scoring.ts: the local constants n, xSum, ySum, xySum, xxSum,
slope, avgPrice and annualGrowth of the source, with x running over the
indices 0..n-1. In this rational model division is total (x / 0 = 0);
histories with zero mean price lie outside the valid inputs of the
engine. -/
def appreciationGrowth (priceHistory : List ℚ) : ℚ :=
  let n : ℚ := priceHistory.length
  let xSum : ℚ := n * (n - 1) / 2
  let ySum : ℚ := priceHistory.sum
  let xySum : ℚ := (priceHistory.enum.map fun p => (p.1 : ℚ) * p.2).sum
  let xxSum : ℚ := n * (n - 1) * (2 * n - 1) / 6
  let slope := (n * xySum - xSum * ySum) / (n * xxSum - xSum * xSum)
  let avgPrice := ySum / n
  slope / avgPrice * 100 * 12

/-- calculateAppreciationScore of src/lib/scoring.ts: neutral 50 for
fewer than four points, else the annualized least-squares growth rate
clamped into a piecewise-linear score: 100 at 5 percent or more, 0 at
-5 percent or less, linear around 50 in between. -/
def calculateAppreciationScore (priceHistory : List ℚ) : ℚ :=
  if priceHistory.length < 4 then 50
  else
    if 5 ≤ appreciationGrowth priceHistory then 100
    else if appreciationGrowth priceHistory ≤ -5 then 0
    else (jsRound (50 + appreciationGrowth priceHistory * 10) : ℚ)

/-- calculateAmenitiesScore of src/lib/scoring.ts: +30 schools, +30
malls, +20 parks, +20 hawkers, capped at 100. -/
def calculateAmenitiesScore (amenities : AmenityCounts) : ℚ :=
  let score : ℚ :=
    (if 0 < amenities.schools then 30 else 0) +
    (if 0 < amenities.malls then 30 else 0) +
    (if 0 < amenities.parks then 20 else 0) +
    (if 0 < amenities.hawkers then 20 else 0)
  min score 100

/-- calculateTotalScore of src/lib/scoring.ts: the five sub-scores, and
the weighted total rounded to one decimal (Math.round(total*10)/10).
The source defaults weights to DEFAULT_WEIGHTS; here they are passed
explicitly. -/
def calculateTotalScore (unitData : UnitData) (weights : ScoreWeights) : ScoreBreakdown :=
  let priceScore := calculatePriceScore unitData.resale_price unitData.town_median
  let locationScore := calculateLocationScore unitData.mrt_distance
  let leaseScore := calculateLeaseScore unitData.remaining_lease_years
  let appreciationScore := calculateAppreciationScore (unitData.price_history.getD [])
  let amenitiesScore := calculateAmenitiesScore
    (unitData.amenities.getD { schools := 0, malls := 0, parks := 0, hawkers := 0 })
  let totalScore :=
    priceScore * weights.price +
    locationScore * weights.location +
    leaseScore * weights.lease +
    appreciationScore * weights.appreciation +
    amenitiesScore * weights.amenities
  { total_score := (jsRound (totalScore * 10) : ℚ) / 10
    price_score := priceScore
    location_score := locationScore
    lease_score := leaseScore
    appreciation_score := appreciationScore
    amenities_score := amenitiesScore }

/- ------------------------------------------------------------------ -/
/- Transactions, insertion, statistics.                                -/
/- ------------------------------------------------------------------ -/

/-- One transaction record, as stored in hdb_transactions (schema.sql)
and as produced by the ingestion step of src/pages/api/cron.ts. The
upstream feed delivers every field as a string; numeric fields are
modelled after the numeric coercion (parseInt / parseFloat) the
ingestion applies before binding them. -/
structure HDBRecord where
  month : String
  town : String
  flat_type : String
  block : String
  street_name : String
  storey_range : String
  floor_area_sqm : ℚ
  resale_price : ℤ
  remaining_lease_years : Option ℤ
  price_per_sqm : ℚ
deriving Repr, DecidableEq, Inhabited

/-- calculatePricePerSqm of src/lib/db.ts: Math.round(price/area*100)/100. -/
def calculatePricePerSqm (price : ℤ) (area : ℚ) : ℚ :=
  (jsRound ((price : ℚ) / area * 100) : ℚ) / 100

/-- Natural composite key of hdb_transactions: UNIQUE(month, town,
flat_type, block, street_name, storey_range, resale_price) in schema.sql. -/
def naturalKey (r : HDBRecord) : String × String × String × String × String × String × ℤ :=
  (r.month, r.town, r.flat_type, r.block, r.street_name, r.storey_range, r.resale_price)

/-- Keys present in a transaction table. -/
def dbKeys (db : List HDBRecord) : List (String × String × String × String × String × String × ℤ) :=
  db.map naturalKey

/-- INSERT OR IGNORE of one record: a duplicate on the natural key is a
no-op (meta.changes = 0), a fresh key appends the row (meta.changes = 1). -/
def insertOrIgnore (db : List HDBRecord) (r : HDBRecord) : List HDBRecord × Bool :=
  if db.any fun t => naturalKey t = naturalKey r then (db, false)
  else (db ++ [r], true)

/-- Batch insert of src/pages/api/cron.ts: the accumulated records are
sent as INSERT OR IGNORE statements (in chunks of 50, which D1 applies
statement by statement, so a sequential fold models it), and
insertedCount counts the statements whose meta.changes was positive. -/
def insertAll : List HDBRecord → List HDBRecord → List HDBRecord × ℕ
  | db, [] => (db, 0)
  | db, r :: rest =>
    let step := insertOrIgnore db r
    let tail := insertAll step.1 rest
    (tail.1, (if step.2 then 1 else 0) + tail.2)

/-- One row of price_statistics (schema.sql). -/
structure StatRow where
  town : String
  flat_type : String
  month : String
  median_price : ℤ
  avg_price : ℤ
  min_price : ℤ
  max_price : ℤ
  transaction_count : ℕ
  avg_price_per_sqm : ℚ
deriving Repr, DecidableEq

/-- Prices of the (town, flat_type, month) group within the cutoff
window — the GROUP BY of updateStatistics. -/
def groupPrices (txns : List HDBRecord) (cutoff town ft month : String) : List ℤ :=
  ((txns.filter fun r => strGeB r.month cutoff).filter
    fun r => r.town = town ∧ r.flat_type = ft ∧ r.month = month).map fun r => r.resale_price

/-- updateStatistics of src/pages/api/cron.ts: INSERT OR REPLACE INTO
price_statistics one row per (town, flat_type, month) group with month
at or after the six-month cutoff. The SQL computes

  ROUND(AVG(resale_price)) as median_price,
  ROUND(AVG(resale_price)) as avg_price,
  MIN(...), MAX(...), COUNT(*), ROUND(AVG(price_per_sqm), 2)

— note that the stored median_price is the rounded arithmetic mean. -/
def updateStatistics (txns : List HDBRecord) (cutoff : String) : List StatRow :=
  let recent := txns.filter fun r => strGeB r.month cutoff
  let keys := (recent.map fun r => (r.town, r.flat_type, r.month)).dedup
  keys.map fun k =>
    let rows := recent.filter fun r => r.town = k.1 ∧ r.flat_type = k.2.1 ∧ r.month = k.2.2
    let prices : List ℤ := rows.map fun r => r.resale_price
    { town := k.1
      flat_type := k.2.1
      month := k.2.2
      median_price := sqlRound ((prices.sum : ℚ) / prices.length)
      avg_price := sqlRound ((prices.sum : ℚ) / prices.length)
      min_price := (prices.min?).getD 0
      max_price := (prices.max?).getD 0
      transaction_count := rows.length
      avg_price_per_sqm := sqlRound2 (((rows.map fun r => r.price_per_sqm).sum) / rows.length) }

/-- Rank-selection median as the specification defines it: sort the
prices, take the middle value, or the average of the two central values
for even counts. This is the spec-side definition the stored
median_price is compared against. -/
def rankMedian (prices : List ℤ) : ℚ :=
  let sorted := List.insertionSort (fun a b => a ≤ b) prices
  let n := sorted.length
  if n = 0 then 0
  else if n % 2 = 1 then ((sorted.getD (n / 2) 0 : ℤ) : ℚ)
  else ((sorted.getD (n / 2 - 1) 0 + sorted.getD (n / 2) 0 : ℤ) : ℚ) / 2

/-- Per-month median selection of src/pages/api/comparison.ts: the SQL
ORDER BY resale_price LIMIT 1 OFFSET floor(count/2) picks the single
element at index count/2 of the ascending price list (no averaging of
the two central values for even counts); a missing or zero result falls
back to the rounded average (the JavaScript || fallback). -/
def comparisonMedianPrice (prices : List ℤ) (avgFallback : ℤ) : ℤ :=
  let sorted := List.insertionSort (fun a b => a ≤ b) prices
  match sorted.get? (prices.length / 2) with
  | some p => if p = 0 then avgFallback else p
  | none => avgFallback

/- ------------------------------------------------------------------ -/
/- Sync orchestrator: watermark, fetch loop, handler.                  -/
/- ------------------------------------------------------------------ -/

/-- SQL MAX(month) over the stored transactions: none on an empty table. -/
def maxMonth (months : List String) : Option String :=
  months.foldl
    (fun acc m => match acc with
      | none => some m
      | some x => if strLtB x m then some m else some x)
    none

/-- Watermark selection of src/pages/api/cron.ts (lines 61–76): start
from the six-months-ago default, and move it forward to MAX(month) only
when that is strictly newer than the default. -/
def computeWatermark (lastDbMonth : Option String) (defaultMonth : String) : String :=
  match lastDbMonth with
  | none => defaultMonth
  | some m => if strLtB defaultMonth m then m else defaultMonth

/-- One upstream page fetch outcome: a non-OK HTTP status, or a parsed
body with its success flag and records. -/
inductive PageResult where
  | httpError (status : ℕ)
  | page (success : Bool) (records : List HDBRecord)
deriving Repr, DecidableEq

/-- Why the page loop stopped, one constructor per exit of the source
loop (httpFailed is the thrown non-429 error; offsetGuard is the
while-condition offset < 200000). -/
inductive StopReason where
  | rateLimited
  | httpFailed (status : ℕ)
  | emptyPage
  | newestTooOld
  | shortPage
  | noRelevant
  | pageCap
  | offsetGuard
deriving Repr, DecidableEq

/-- The five graceful exits: every exit except a thrown HTTP error, the
dead no-relevant-records heuristic and the dead offset guard. -/
def StopReason.isGraceful : StopReason → Bool
  | .rateLimited => true
  | .emptyPage => true
  | .newestTooOld => true
  | .shortPage => true
  | .pageCap => true
  | _ => false

/-- Month of the first record of a page (records[0].month); the newest
month of the page under the descending-by-month sort. -/
def headMonth : List HDBRecord → String
  | [] => ""
  | r :: _ => r.month

/-- The page-fetch loop of src/pages/api/cron.ts (lines 84–146), page
index k standing for offset = 1000 * k (limit = 1000, maxPages = 50):

  while (offset < 200000):
    fetch page k;
    non-OK status: 429 stops softly, anything else throws;
    empty or unsuccessful body: stop;
    append the records with month >= filterDate;
    stop if the newest month of the page is older than filterDate;
    stop if the page was short;
    offset += limit;
    stop if nothing relevant was found in the first 5000 records;
    stop if the 50-page safety cap is reached;
    else loop.
-/
def fetchLoop (fetch : ℕ → PageResult) (filterDate : String) : ℕ → List HDBRecord → List HDBRecord × StopReason
  | k, acc =>
    if 1000 * k < 200000 then
      match fetch k with
      | PageResult.httpError status =>
        if status = 429 then (acc, StopReason.rateLimited)
        else (acc, StopReason.httpFailed status)
      | PageResult.page success records =>
        if success && ! records.isEmpty then
          let newestInBatch := headMonth records
          let filtered := records.filter fun r => strGeB r.month filterDate
          let acc2 := acc ++ filtered
          if strLtB newestInBatch filterDate then (acc2, StopReason.newestTooOld)
          else if records.length < 1000 then (acc2, StopReason.shortPage)
          else if acc2.isEmpty && decide (5000 < 1000 * (k + 1)) then (acc2, StopReason.noRelevant)
          else if _h : 50 ≤ k + 1 then (acc2, StopReason.pageCap)
          else fetchLoop fetch filterDate (k + 1) acc2
        else (acc, StopReason.emptyPage)
    else (acc, StopReason.offsetGuard)
  termination_by k _ => 50 - k
  decreasing_by simp_wf; omega

/-- The whole fetch phase: run the loop from page 0 with no records. -/
def syncFetch (fetch : ℕ → PageResult) (filterDate : String) : List HDBRecord × StopReason :=
  fetchLoop fetch filterDate 0 []

/-- Records of a page body (empty for an HTTP error). -/
def pageRecords : PageResult → List HDBRecord
  | PageResult.page _ records => records
  | PageResult.httpError _ => []

/-- Watermark-filtered records of page j. -/
def pageFiltered (fetch : ℕ → PageResult) (filterDate : String) (j : ℕ) : List HDBRecord :=
  (pageRecords (fetch j)).filter fun r => strGeB r.month filterDate

/-- Watermark-filtered records of the pages k, k+1, ..., i-1. -/
def collectFrom (fetch : ℕ → PageResult) (filterDate : String) (k i : ℕ) : List HDBRecord :=
  (List.range' k (i - k)).flatMap (pageFiltered fetch filterDate)

/-- A page that keeps the loop going: a successful body, at least a full
page of records, newest month not older than the watermark. -/
def fullOkPage (fetch : ℕ → PageResult) (filterDate : String) (j : ℕ) : Prop :=
  ∃ records, fetch j = PageResult.page true records ∧
    1000 ≤ records.length ∧ strLtB (headMonth records) filterDate = false

/-- The four stop conditions named by the specification, at page k: an
upstream 429, a page shorter than the page size, a page whose newest
record is already older than the watermark, or the 50-page safety cap. -/
def claimStop (fetch : ℕ → PageResult) (filterDate : String) (k : ℕ) : Prop :=
  fetch k = PageResult.httpError 429 ∨
  (∃ s records, fetch k = PageResult.page s records ∧ records.length < 1000) ∨
  (∃ s records, fetch k = PageResult.page s records ∧ strLtB (headMonth records) filterDate = true) ∨
  50 ≤ k + 1

/-- A response stream with no hard upstream failures: every page is
either a 429 or an HTTP-OK body with success = true. -/
def wellFormed (fetch : ℕ → PageResult) : Prop :=
  ∀ k, fetch k = PageResult.httpError 429 ∨ ∃ records, fetch k = PageResult.page true records

/-- Request facts the handler inspects: the cf-cron header value and the
secret query parameter. -/
structure CronRequest where
  cfCron : Option String
  secret : Option String
deriving Repr, DecidableEq

/-- Access validation of src/pages/api/cron.ts (lines 28–40) (enrich.ts
lines 12–23 perform the identical check): the request passes when the
cron header is set to true or the shared secret matches. -/
def cronAuthorized (req : CronRequest) : Bool :=
  (req.cfCron == some "true") || (req.secret == some "manual-sync-trigger")

/-- The modelled database state: the two tables the sync writes, and the
sync_metadata row for sync_type hdb_data. -/
structure DBState where
  transactions : List HDBRecord
  statistics : List StatRow
  syncStatus : String
  syncRecordsProcessed : ℕ
  syncError : Option String
deriving Repr, DecidableEq

/-- Result of one handler invocation: HTTP status of the response, the
reported fetched and inserted counts (present only on success), the
database after the call, and the trace of issued database statements
(empty means the database was never touched). -/
structure CronResult where
  status : ℕ
  recordsFetched : Option ℕ
  recordsInserted : Option ℕ
  db : DBState
  dbOps : List String
deriving Repr, DecidableEq

/-- The GET handler of src/pages/api/cron.ts. Parameters defaultMonth
and statsCutoff are the two now-derived six-months-ago month strings the
source computes from the clock; fetch is the upstream page oracle. The
enrichment phase (populateUnitScores) writes only unit_scores rows and
coordinate backfills, none of which are part of the modelled state, and
storage operations are assumed to succeed; the only modelled failure is
the thrown non-429 upstream HTTP error, which the catch block turns
into a failed sync state and a 500 response. -/
def cronGET (req : CronRequest) (dbConfigured : Bool) (fetch : ℕ → PageResult)
    (defaultMonth statsCutoff : String) (db : DBState) : CronResult :=
  if ! cronAuthorized req then
    { status := 401, recordsFetched := none, recordsInserted := none, db := db, dbOps := [] }
  else if ! dbConfigured then
    { status := 500, recordsFetched := none, recordsInserted := none, db := db, dbOps := [] }
  else
    let db1 : DBState := { db with syncStatus := "running" }
    let ops1 : List String :=
      ["UPDATE sync_metadata SET status = running WHERE sync_type = hdb_data",
       "SELECT MAX(month) FROM hdb_transactions"]
    let lastDbMonth := maxMonth (db.transactions.map fun r => r.month)
    let filterDate := computeWatermark lastDbMonth defaultMonth
    match syncFetch fetch filterDate with
    | (_, StopReason.httpFailed status) =>
      { status := 500
        recordsFetched := none
        recordsInserted := none
        db := { db1 with syncStatus := "failed", syncError := some (toString status) }
        dbOps := ops1 ++ ["UPDATE sync_metadata SET status = failed WHERE sync_type = hdb_data"] }
    | (allRecords, _) =>
      let inserted := insertAll db1.transactions allRecords
      let stats := updateStatistics inserted.1 statsCutoff
      { status := 200
        recordsFetched := some allRecords.length
        recordsInserted := some inserted.2
        db :=
          { transactions := inserted.1
            statistics := stats
            syncStatus := "completed"
            syncRecordsProcessed := inserted.2
            syncError := none }
        dbOps := ops1 ++
          ["INSERT OR IGNORE INTO hdb_transactions",
           "INSERT OR REPLACE INTO price_statistics",
           "UPDATE sync_metadata SET status = completed WHERE sync_type = hdb_data"] }

/- ------------------------------------------------------------------ -/
/- Amenity-count client, from src/lib/onemap.ts and its superseded      -/
/- duplicate variant.                                                  -/
/- ------------------------------------------------------------------ -/

/-- Provider response to a retrieveTheme query: an HTTP error status, a
parsed body whose SrchResults field may be absent or an array of opaque
rows, or a thrown network error. -/
inductive ThemeResp where
  | httpError (status : ℕ)
  | ok (srchResults : Option (List Unit))
  | netError
deriving Repr, DecidableEq

/-- getNearbyAmenities of src/lib/onemap.ts (the variant the sync
imports): any non-OK status — including the 404 given an absent theme —
returns 0, a thrown error returns 0, and a body counts
SrchResults.length - 1 (dropping the metadata row) only when SrchResults
is an array with more than one element. -/
def getNearbyAmenities : ThemeResp → ℤ
  | ThemeResp.httpError _ => 0
  | ThemeResp.netError => 0
  | ThemeResp.ok none => 0
  | ThemeResp.ok (some items) => if 1 < items.length then (items.length : ℤ) - 1 else 0

/-- getNearbyAmenities of the superseded duplicate OneMap client: same
shape, but the body branch returns SrchResults.length - 1 whenever
SrchResults is present (data.SrchResults ? data.SrchResults.length - 1 : 0),
with no guard on an empty array. -/
def getNearbyAmenitiesLegacy : ThemeResp → ℤ
  | ThemeResp.httpError _ => 0
  | ThemeResp.netError => 0
  | ThemeResp.ok none => 0
  | ThemeResp.ok (some items) => (items.length : ℤ) - 1

/- ------------------------------------------------------------------ -/
/- Concrete sample data used by the evaluation theorems below.         -/
/- ------------------------------------------------------------------ -/

/-- A stored transaction with the given key fields and price, the other
columns fixed at representative values. -/
def sampleTxn (month town ft block street storey : String) (price : ℤ) : HDBRecord :=
  { month := month, town := town, flat_type := ft, block := block, street_name := street
    storey_range := storey, floor_area_sqm := 90, resale_price := price
    remaining_lease_years := some 70, price_per_sqm := calculatePricePerSqm price 90 }

/-- A unit whose sub-scores are 50, 99, 100, 50, 0: town median missing,
206 m to transit, 95 lease years, no price history, no amenities. -/
def roundingUnit : UnitData :=
  { resale_price := 500000, town_median := 0, mrt_distance := 206
    remaining_lease_years := 95, price_history := none, amenities := none }

/- ------------------------------------------------------------------ -/
/- Bridge lemmas between the Bool string comparisons and the order on   -/
/- String, and bounds for the JavaScript rounding.                     -/
/- ------------------------------------------------------------------ -/

theorem strLtB_iff {a b : String} : strLtB a b = true ↔ a < b := by
  rw [String.lt_iff_toList_lt]; simp [strLtB]

theorem strLtB_eq_false_iff {a b : String} : strLtB a b = false ↔ ¬ a < b := by
  rw [← strLtB_iff]; simp

theorem strGeB_iff {a b : String} : strGeB a b = true ↔ ¬ a < b := by
  simp [strGeB, strLtB_eq_false_iff]

theorem jsRound_nonneg (q : ℚ) (h : 0 ≤ q) : (0 : ℤ) ≤ jsRound q := by
  unfold jsRound
  exact Int.floor_nonneg.mpr (by linarith)

theorem jsRound_le (q : ℚ) (c : ℤ) (h : q < (c : ℚ) + 1/2) : jsRound q ≤ c := by
  unfold jsRound
  have : q + 1/2 < ((c + 1 : ℤ) : ℚ) := by push_cast; linarith
  exact Int.lt_add_one_iff.mp (Int.floor_lt.mpr this)

/- ------------------------------------------------------------------ -/
/- C8: price-score boundary values.                                    -/
/- ------------------------------------------------------------------ -/

/-- C8: for a positive town median, a price-to-median ratio of exactly
0.70 (and any ratio below) scores 100, a ratio of exactly 1.50 (and any
ratio above) scores 0, and a ratio of 1.10 scores exactly 50 through the
linear interpolation 100 - (ratio - 0.70) * 125. -/
theorem priceScore_boundary (p m : ℚ) (hm : 0 < m) :
    (p / m ≤ 7/10 → calculatePriceScore p m = 100) ∧
    (3/2 ≤ p / m → calculatePriceScore p m = 0) ∧
    (p / m = 11/10 → calculatePriceScore p m = 50) := by
  have hm' : ¬ m ≤ 0 := not_le.mpr hm
  refine ⟨fun h => ?_, fun h => ?_, fun h => ?_⟩ <;>
    simp only [calculatePriceScore, hm', if_false]
  · rw [if_pos h]
  · have h1 : ¬ p / m ≤ 7/10 := by intro hc; linarith
    rw [if_neg h1, if_pos h]
  · have h1 : ¬ p / m ≤ 7/10 := by rw [h]; norm_num
    have h2 : ¬ (3/2 : ℚ) ≤ p / m := by rw [h]; norm_num
    rw [if_neg h1, if_neg h2, h]
    norm_num [jsRound]

/-- Witness for C8 at town median 100 and prices 70, 150, 110. -/
theorem priceScore_boundary_witness :
    calculatePriceScore 70 100 = 100 ∧
    calculatePriceScore 150 100 = 0 ∧
    calculatePriceScore 110 100 = 50 :=
  ⟨(priceScore_boundary 70 100 (by norm_num)).1 (by norm_num),
   (priceScore_boundary 150 100 (by norm_num)).2.1 (by norm_num),
   (priceScore_boundary 110 100 (by norm_num)).2.2 (by norm_num)⟩

/- ------------------------------------------------------------------ -/
/- C10: the division by the town median is guarded.                    -/
/- ------------------------------------------------------------------ -/

/-- C10: for every unit price, a nonpositive town median short-circuits
calculatePriceScore to the neutral score 50, so the ratio division is
never formed for a zero or negative median. -/
theorem priceScore_guarded (p m : ℚ) (hm : m ≤ 0) :
    calculatePriceScore p m = 50 := by
  simp [calculatePriceScore, hm]

/-- Witness for C10 at a zero town median. -/
theorem priceScore_guarded_witness : calculatePriceScore 500000 0 = 50 :=
  priceScore_guarded 500000 0 (by norm_num)

/- ------------------------------------------------------------------ -/
/- C9: amenity counts.                                                 -/
/- ------------------------------------------------------------------ -/

/-- C9 counterexample: the superseded duplicate client returns -1, a
negative count, when the provider responds with a present but empty
SrchResults array. -/
theorem amenityCount_legacy_negative :
    getNearbyAmenitiesLegacy (ThemeResp.ok (some [])) = -1 ∧
    ¬ (0 : ℤ) ≤ getNearbyAmenitiesLegacy (ThemeResp.ok (some [])) := by
  constructor <;> simp [getNearbyAmenitiesLegacy]

/-- C9 (amended): the current client returns a count that is 0 or more
on every response and returns zero results for a not-found (404) status
or an absent SrchResults field; the superseded duplicate client returns
0 for errors and absent fields and stays nonnegative whenever the
returned SrchResults array is nonempty (only the present-but-empty array
of the counterexample escapes). -/
theorem amenityCount_nonneg :
    (∀ resp, (0 : ℤ) ≤ getNearbyAmenities resp) ∧
    getNearbyAmenities (ThemeResp.httpError 404) = 0 ∧
    getNearbyAmenities (ThemeResp.ok none) = 0 ∧
    (∀ status, getNearbyAmenitiesLegacy (ThemeResp.httpError status) = 0) ∧
    getNearbyAmenitiesLegacy (ThemeResp.ok none) = 0 ∧
    (∀ items, items ≠ [] → (0 : ℤ) ≤ getNearbyAmenitiesLegacy (ThemeResp.ok (some items))) := by
  refine ⟨?_, rfl, rfl, fun _ => rfl, rfl, ?_⟩
  · intro resp
    match resp with
    | ThemeResp.httpError s => simp [getNearbyAmenities]
    | ThemeResp.netError => simp [getNearbyAmenities]
    | ThemeResp.ok none => simp [getNearbyAmenities]
    | ThemeResp.ok (some items) =>
      simp only [getNearbyAmenities]
      split_ifs with h
      · omega
      · exact le_refl 0
  · intro items h
    have hlen : 1 ≤ items.length := List.length_pos.mpr h
    simp only [getNearbyAmenitiesLegacy]
    omega

/-- Witness for C9 at a two-row and a one-row response. -/
theorem amenityCount_nonneg_witness :
    (0 : ℤ) ≤ getNearbyAmenities (ThemeResp.ok (some [(), ()])) ∧
    (0 : ℤ) ≤ getNearbyAmenitiesLegacy (ThemeResp.ok (some [()])) :=
  ⟨amenityCount_nonneg.1 (ThemeResp.ok (some [(), ()])),
   amenityCount_nonneg.2.2.2.2.2 [()] (by simp)⟩

/- ------------------------------------------------------------------ -/
/- C3: watermark selection.                                            -/
/- ------------------------------------------------------------------ -/

/-- C3 counterexample: with stored transactions whose newest month
2020-01 is older than the six-month default 2025-04, the watermark is
the default, not MAX(month) as the claim states. -/
theorem watermark_stale_counterexample :
    computeWatermark (some "2020-01") "2025-04" = "2025-04" ∧
    ("2025-04" : String) ≠ "2020-01" := by
  have h : strLtB "2025-04" "2020-01" = false := by decide
  exact ⟨by simp [computeWatermark, h], by decide⟩

/-- C3 (amended): the watermark is the maximum of MAX(month) and the
six-month default: it equals the default when no transactions exist, it
is never below either bound, it is always one of the two, and it equals
MAX(month) exactly when MAX(month) is strictly newer than the default. -/
theorem watermark_max_of_default (m d : String) :
    computeWatermark none d = d ∧
    d ≤ computeWatermark (some m) d ∧
    m ≤ computeWatermark (some m) d ∧
    (computeWatermark (some m) d = m ∨ computeWatermark (some m) d = d) ∧
    (d < m → computeWatermark (some m) d = m) := by
  have hcw : computeWatermark (some m) d = if strLtB d m then m else d := rfl
  by_cases h : strLtB d m = true
  · have hdm : d < m := strLtB_iff.mp h
    rw [hcw, if_pos h]
    exact ⟨rfl, le_of_lt hdm, le_refl m, Or.inl rfl, fun _ => rfl⟩
  · have hmd : m ≤ d := le_of_not_lt (strLtB_eq_false_iff.mp (by simpa using h))
    rw [hcw, if_neg h]
    exact ⟨rfl, le_refl d, hmd, Or.inr rfl, fun hc => absurd hc (not_lt.mpr hmd)⟩

/-- Witness for C3 with a fresh MAX(month) 2025-09 above the default
2025-04: the watermark advances to it. -/
theorem watermark_advances_witness :
    ("2025-04" : String) < "2025-09" ∧
    computeWatermark (some "2025-09") "2025-04" = "2025-09" :=
  have h : ("2025-04" : String) < "2025-09" := by
    rw [String.lt_iff_toList_lt]; decide
  ⟨h, (watermark_max_of_default "2025-09" "2025-04").2.2.2.2 h⟩

/- ------------------------------------------------------------------ -/
/- C1: stored median is the mean, not the rank median.                 -/
/- ------------------------------------------------------------------ -/

/-- C1: the statistics recomputation stores ROUND(AVG(resale_price)) as
median_price — the arithmetic mean — not the rank-selection median the
specification mandates: on a (BEDOK, 4 ROOM, 2025-09) group with prices
[100, 200, 400] it stores 233 where rank selection gives 200. The
specification examples do hold of the rank median ([100,200,300,400]
gives 250, [100,200,300] gives 200), but the comparison endpoint's
selection (sorted[count/2]) returns 300 for [100,200,300,400], not 250. -/
theorem median_defect :
    (updateStatistics
      [sampleTxn "2025-09" "BEDOK" "4 ROOM" "101" "BEDOK NORTH RD" "04 TO 06" 100,
       sampleTxn "2025-09" "BEDOK" "4 ROOM" "102" "BEDOK NORTH RD" "04 TO 06" 200,
       sampleTxn "2025-09" "BEDOK" "4 ROOM" "103" "BEDOK NORTH RD" "04 TO 06" 400]
      "2025-04").map (fun s => s.median_price) = [233] ∧
    rankMedian [100, 200, 400] = 200 ∧
    ((233 : ℤ) ≠ 200) ∧
    rankMedian [100, 200, 300, 400] = 250 ∧
    rankMedian [100, 200, 300] = 200 ∧
    comparisonMedianPrice [100, 200, 300, 400] 250 = 300 ∧
    ((300 : ℤ) ≠ 250) := by
  have hge : strGeB "2025-09" "2025-04" = true := by decide
  refine ⟨?_, ?_, by decide, ?_, ?_, ?_, by decide⟩
  · simp only [updateStatistics, sampleTxn]
    norm_num [hge, List.filter, List.dedup, sqlRound]
  · norm_num [rankMedian, List.insertionSort, List.orderedInsert]
  · norm_num [rankMedian, List.insertionSort, List.orderedInsert]
  · norm_num [rankMedian, List.insertionSort, List.orderedInsert]
  · norm_num [comparisonMedianPrice, List.insertionSort, List.orderedInsert]

/- ------------------------------------------------------------------ -/
/- C2: sub-score bounds and the composite.                             -/
/- ------------------------------------------------------------------ -/

theorem calculatePriceScore_bounds (p m : ℚ) :
    0 ≤ calculatePriceScore p m ∧ calculatePriceScore p m ≤ 100 := by
  unfold calculatePriceScore
  rcases le_or_lt m 0 with h1 | h1
  · rw [if_pos h1]; norm_num
  · rw [if_neg (not_le.mpr h1)]
    rcases le_or_lt (p / m) (7/10) with h2 | h2
    · rw [if_pos h2]; norm_num
    · rw [if_neg (not_le.mpr h2)]
      rcases le_or_lt (3/2 : ℚ) (p / m) with h3 | h3
      · rw [if_pos h3]; norm_num
      · rw [if_neg (not_le.mpr h3)]
        constructor
        · have := jsRound_nonneg (100 - (p / m - 7/10) * 125) (by linarith)
          exact_mod_cast this
        · have := jsRound_le (100 - (p / m - 7/10) * 125) 100 (by push_cast; linarith)
          exact_mod_cast this

theorem calculateLocationScore_bounds (d : ℚ) :
    0 ≤ calculateLocationScore d ∧ calculateLocationScore d ≤ 100 := by
  unfold calculateLocationScore
  rcases le_or_lt d 200 with h1 | h1
  · rw [if_pos h1]; norm_num
  · rw [if_neg (not_le.mpr h1)]
    rcases le_or_lt (1000 : ℚ) d with h2 | h2
    · rw [if_pos h2]; norm_num
    · rw [if_neg (not_le.mpr h2)]
      constructor
      · have := jsRound_nonneg (100 - (d - 200) / 8) (by linarith)
        exact_mod_cast this
      · have := jsRound_le (100 - (d - 200) / 8) 100 (by push_cast; linarith)
        exact_mod_cast this

theorem calculateLeaseScore_bounds (y : ℚ) :
    0 ≤ calculateLeaseScore y ∧ calculateLeaseScore y ≤ 100 := by
  unfold calculateLeaseScore
  rcases le_or_lt (90 : ℚ) y with h1 | h1
  · rw [if_pos h1]; norm_num
  · rw [if_neg (not_le.mpr h1)]
    rcases lt_or_le y 30 with h2 | h2
    · rw [if_pos h2]; norm_num
    · rw [if_neg (not_lt.mpr h2)]
      constructor
      · have := jsRound_nonneg ((y - 30) * (167/100)) (by nlinarith)
        exact_mod_cast this
      · have := jsRound_le ((y - 30) * (167/100)) 100 (by push_cast; nlinarith)
        exact_mod_cast this

theorem calculateAppreciationScore_bounds (h : List ℚ) :
    0 ≤ calculateAppreciationScore h ∧ calculateAppreciationScore h ≤ 100 := by
  unfold calculateAppreciationScore
  rcases lt_or_le h.length 4 with h1 | h1
  · rw [if_pos h1]; norm_num
  · rw [if_neg (not_lt.mpr h1)]
    rcases le_or_lt (5 : ℚ) (appreciationGrowth h) with h2 | h2
    · rw [if_pos h2]; norm_num
    · rw [if_neg (not_le.mpr h2)]
      rcases le_or_lt (appreciationGrowth h) (-5) with h3 | h3
      · rw [if_pos h3]; norm_num
      · rw [if_neg (not_le.mpr h3)]
        constructor
        · have := jsRound_nonneg (50 + appreciationGrowth h * 10) (by linarith)
          exact_mod_cast this
        · have := jsRound_le (50 + appreciationGrowth h * 10) 100 (by push_cast; linarith)
          exact_mod_cast this

theorem calculateAmenitiesScore_bounds (a : AmenityCounts) :
    0 ≤ calculateAmenitiesScore a ∧ calculateAmenitiesScore a ≤ 100 := by
  unfold calculateAmenitiesScore
  constructor
  · apply le_min _ (by norm_num)
    split_ifs <;> norm_num
  · exact min_le_right _ _

/-- C2 counterexample: on a unit with sub-scores 50, 99, 100, 50, 0 the
weighted sum is 67.25, but the returned composite is
Math.round(672.5)/10 = 67.3, so the composite does not equal the
weighted sum of the sub-scores. -/
theorem composite_rounding_counterexample :
    (calculateTotalScore roundingUnit DEFAULT_WEIGHTS).total_score ≠
      (calculateTotalScore roundingUnit DEFAULT_WEIGHTS).price_score * (3/10) +
      (calculateTotalScore roundingUnit DEFAULT_WEIGHTS).location_score * (1/4) +
      (calculateTotalScore roundingUnit DEFAULT_WEIGHTS).lease_score * (1/5) +
      (calculateTotalScore roundingUnit DEFAULT_WEIGHTS).appreciation_score * (3/20) +
      (calculateTotalScore roundingUnit DEFAULT_WEIGHTS).amenities_score * (1/10) := by
  norm_num [calculateTotalScore, DEFAULT_WEIGHTS, roundingUnit, calculatePriceScore,
    calculateLocationScore, calculateLeaseScore, calculateAppreciationScore,
    calculateAmenitiesScore, jsRound]

/-- C2 (amended): every sub-score produced by calculateTotalScore with
the default weights lies in [0,100]; the composite equals the weighted
sum of the sub-scores (weights .30/.25/.20/.15/.10, which sum to 1.0)
rounded to the nearest tenth, and therefore also lies in [0,100]. The
exact weighted sum itself is not returned when its second decimal digit
is nonzero (see the rounding counterexample). -/
theorem score_bounds_composite (u : UnitData) :
    (0 ≤ (calculateTotalScore u DEFAULT_WEIGHTS).price_score ∧
      (calculateTotalScore u DEFAULT_WEIGHTS).price_score ≤ 100) ∧
    (0 ≤ (calculateTotalScore u DEFAULT_WEIGHTS).location_score ∧
      (calculateTotalScore u DEFAULT_WEIGHTS).location_score ≤ 100) ∧
    (0 ≤ (calculateTotalScore u DEFAULT_WEIGHTS).lease_score ∧
      (calculateTotalScore u DEFAULT_WEIGHTS).lease_score ≤ 100) ∧
    (0 ≤ (calculateTotalScore u DEFAULT_WEIGHTS).appreciation_score ∧
      (calculateTotalScore u DEFAULT_WEIGHTS).appreciation_score ≤ 100) ∧
    (0 ≤ (calculateTotalScore u DEFAULT_WEIGHTS).amenities_score ∧
      (calculateTotalScore u DEFAULT_WEIGHTS).amenities_score ≤ 100) ∧
    (calculateTotalScore u DEFAULT_WEIGHTS).total_score =
      (jsRound (((calculateTotalScore u DEFAULT_WEIGHTS).price_score * (3/10) +
        (calculateTotalScore u DEFAULT_WEIGHTS).location_score * (1/4) +
        (calculateTotalScore u DEFAULT_WEIGHTS).lease_score * (1/5) +
        (calculateTotalScore u DEFAULT_WEIGHTS).appreciation_score * (3/20) +
        (calculateTotalScore u DEFAULT_WEIGHTS).amenities_score * (1/10)) * 10) : ℚ) / 10 ∧
    (0 ≤ (calculateTotalScore u DEFAULT_WEIGHTS).total_score ∧
      (calculateTotalScore u DEFAULT_WEIGHTS).total_score ≤ 100) := by
  obtain ⟨p0, p1⟩ := calculatePriceScore_bounds u.resale_price u.town_median
  obtain ⟨l0, l1⟩ := calculateLocationScore_bounds u.mrt_distance
  obtain ⟨e0, e1⟩ := calculateLeaseScore_bounds u.remaining_lease_years
  obtain ⟨a0, a1⟩ := calculateAppreciationScore_bounds (u.price_history.getD [])
  obtain ⟨m0, m1⟩ := calculateAmenitiesScore_bounds
    (u.amenities.getD { schools := 0, malls := 0, parks := 0, hawkers := 0 })
  refine ⟨⟨p0, p1⟩, ⟨l0, l1⟩, ⟨e0, e1⟩, ⟨a0, a1⟩, ⟨m0, m1⟩, rfl, ?_, ?_⟩
  · show 0 ≤ (jsRound ((calculatePriceScore u.resale_price u.town_median * (3/10) +
      calculateLocationScore u.mrt_distance * (1/4) +
      calculateLeaseScore u.remaining_lease_years * (1/5) +
      calculateAppreciationScore (u.price_history.getD []) * (3/20) +
      calculateAmenitiesScore
        (u.amenities.getD { schools := 0, malls := 0, parks := 0, hawkers := 0 }) * (1/10)) * 10) : ℚ) / 10
    have hz := jsRound_nonneg ((calculatePriceScore u.resale_price u.town_median * (3/10) +
      calculateLocationScore u.mrt_distance * (1/4) +
      calculateLeaseScore u.remaining_lease_years * (1/5) +
      calculateAppreciationScore (u.price_history.getD []) * (3/20) +
      calculateAmenitiesScore
        (u.amenities.getD { schools := 0, malls := 0, parks := 0, hawkers := 0 }) * (1/10)) * 10)
      (by linarith)
    have hzq : (0 : ℚ) ≤ (jsRound ((calculatePriceScore u.resale_price u.town_median * (3/10) +
      calculateLocationScore u.mrt_distance * (1/4) +
      calculateLeaseScore u.remaining_lease_years * (1/5) +
      calculateAppreciationScore (u.price_history.getD []) * (3/20) +
      calculateAmenitiesScore
        (u.amenities.getD { schools := 0, malls := 0, parks := 0, hawkers := 0 }) * (1/10)) * 10) : ℚ) := by
      exact_mod_cast hz
    linarith
  · show (jsRound ((calculatePriceScore u.resale_price u.town_median * (3/10) +
      calculateLocationScore u.mrt_distance * (1/4) +
      calculateLeaseScore u.remaining_lease_years * (1/5) +
      calculateAppreciationScore (u.price_history.getD []) * (3/20) +
      calculateAmenitiesScore
        (u.amenities.getD { schools := 0, malls := 0, parks := 0, hawkers := 0 }) * (1/10)) * 10) : ℚ) / 10 ≤ 100
    have hz := jsRound_le ((calculatePriceScore u.resale_price u.town_median * (3/10) +
      calculateLocationScore u.mrt_distance * (1/4) +
      calculateLeaseScore u.remaining_lease_years * (1/5) +
      calculateAppreciationScore (u.price_history.getD []) * (3/20) +
      calculateAmenitiesScore
        (u.amenities.getD { schools := 0, malls := 0, parks := 0, hawkers := 0 }) * (1/10)) * 10)
      1000 (by push_cast; linarith)
    have hzq : (jsRound ((calculatePriceScore u.resale_price u.town_median * (3/10) +
      calculateLocationScore u.mrt_distance * (1/4) +
      calculateLeaseScore u.remaining_lease_years * (1/5) +
      calculateAppreciationScore (u.price_history.getD []) * (3/20) +
      calculateAmenitiesScore
        (u.amenities.getD { schools := 0, malls := 0, parks := 0, hawkers := 0 }) * (1/10)) * 10) : ℚ) ≤ 1000 := by
      exact_mod_cast hz
    linarith

/- ------------------------------------------------------------------ -/
/- C5: idempotent insertion on the natural key.                        -/
/- ------------------------------------------------------------------ -/

theorem mem_dbKeys_insertOrIgnore (db : List HDBRecord) (r : HDBRecord) :
    naturalKey r ∈ dbKeys (insertOrIgnore db r).1 := by
  unfold insertOrIgnore
  split_ifs with h
  · obtain ⟨t, ht, hkey⟩ := List.any_eq_true.mp h
    exact List.mem_map.mpr ⟨t, ht, of_decide_eq_true hkey⟩
  · simp [dbKeys]

theorem dbKeys_mono_insertOrIgnore (db : List HDBRecord) (r : HDBRecord)
    (k : String × String × String × String × String × String × ℤ) (hk : k ∈ dbKeys db) :
    k ∈ dbKeys (insertOrIgnore db r).1 := by
  unfold insertOrIgnore
  split_ifs with h
  · exact hk
  · simp only [dbKeys, List.map_append]
    exact List.mem_append_left _ hk

theorem dbKeys_mono_insertAll (db recs : List HDBRecord)
    (k : String × String × String × String × String × String × ℤ) (hk : k ∈ dbKeys db) :
    k ∈ dbKeys (insertAll db recs).1 := by
  induction recs generalizing db with
  | nil => exact hk
  | cons r rest ih =>
    simp only [insertAll]
    exact ih (insertOrIgnore db r).1 (dbKeys_mono_insertOrIgnore db r k hk)

theorem mem_dbKeys_insertAll (db recs : List HDBRecord) (r : HDBRecord) (hr : r ∈ recs) :
    naturalKey r ∈ dbKeys (insertAll db recs).1 := by
  induction recs generalizing db with
  | nil => cases hr
  | cons a rest ih =>
    simp only [insertAll]
    rcases List.mem_cons.mp hr with h | h
    · subst h
      exact dbKeys_mono_insertAll _ rest _ (mem_dbKeys_insertOrIgnore db r)
    · exact ih _ h

theorem insertAll_no_new (db recs : List HDBRecord)
    (h : ∀ r ∈ recs, naturalKey r ∈ dbKeys db) : insertAll db recs = (db, 0) := by
  induction recs with
  | nil => rfl
  | cons a rest ih =>
    obtain ⟨t, ht, hkey⟩ := List.mem_map.mp (h a (List.mem_cons_self a rest))
    have hignore : insertOrIgnore db a = (db, false) := by
      unfold insertOrIgnore
      rw [if_pos (List.any_eq_true.mpr ⟨t, ht, decide_eq_true hkey⟩)]
    simp only [insertAll, hignore]
    rw [ih fun r hr => h r (List.mem_cons_of_mem a hr)]
    rfl

/-- C5: inserting the accumulated records is idempotent on the natural
composite key (month, town, flat_type, block, street_name, storey_range,
resale_price): a second run over the same record set changes nothing and
reports 0 insertions (duplicates are no-ops, never errors), and after a
run every record of the set is present by key. -/
theorem insert_idempotent (db recs : List HDBRecord) :
    insertAll (insertAll db recs).1 recs = ((insertAll db recs).1, 0) ∧
    ∀ r, r ∈ recs → naturalKey r ∈ dbKeys (insertAll db recs).1 := by
  constructor
  · exact insertAll_no_new _ _ fun r hr => mem_dbKeys_insertAll db recs r hr
  · exact fun r hr => mem_dbKeys_insertAll db recs r hr

/-- Witness for C5 on a one-record snapshot over an empty table. -/
theorem insert_idempotent_witness :
    insertAll
      (insertAll [] [sampleTxn "2025-09" "BEDOK" "4 ROOM" "101" "BEDOK NORTH RD" "04 TO 06" 500000]).1
      [sampleTxn "2025-09" "BEDOK" "4 ROOM" "101" "BEDOK NORTH RD" "04 TO 06" 500000] =
      ((insertAll [] [sampleTxn "2025-09" "BEDOK" "4 ROOM" "101" "BEDOK NORTH RD" "04 TO 06" 500000]).1, 0) ∧
    naturalKey (sampleTxn "2025-09" "BEDOK" "4 ROOM" "101" "BEDOK NORTH RD" "04 TO 06" 500000) ∈
      dbKeys (insertAll [] [sampleTxn "2025-09" "BEDOK" "4 ROOM" "101" "BEDOK NORTH RD" "04 TO 06" 500000]).1 :=
  ⟨(insert_idempotent [] [sampleTxn "2025-09" "BEDOK" "4 ROOM" "101" "BEDOK NORTH RD" "04 TO 06" 500000]).1,
   (insert_idempotent [] [sampleTxn "2025-09" "BEDOK" "4 ROOM" "101" "BEDOK NORTH RD" "04 TO 06" 500000]).2
     (sampleTxn "2025-09" "BEDOK" "4 ROOM" "101" "BEDOK NORTH RD" "04 TO 06" 500000) (by simp)⟩

/- ------------------------------------------------------------------ -/
/- C6: the authorization gate rejects without touching state.          -/
/- ------------------------------------------------------------------ -/

/-- C6: a request that neither carries the cron header set to true nor
the valid shared secret is answered 401 with no reported counts, the
database state is returned unchanged, and the trace of issued database
statements is empty — no read or write happens and the sync state row
keeps its prior value. -/
theorem unauthorized_rejected (req : CronRequest) (dbConfigured : Bool)
    (fetch : ℕ → PageResult) (defaultMonth statsCutoff : String) (db : DBState)
    (hna : cronAuthorized req = false) :
    cronGET req dbConfigured fetch defaultMonth statsCutoff db =
      { status := 401, recordsFetched := none, recordsInserted := none, db := db, dbOps := [] } := by
  unfold cronGET
  rw [hna]
  rfl

/-- Witness for C6: a request with no cron header and a wrong secret. -/
theorem unauthorized_rejected_witness :
    cronGET { cfCron := none, secret := some "wrong" } true (fun _ => PageResult.httpError 500)
      "2025-04" "2025-04"
      { transactions := [], statistics := [], syncStatus := "pending",
        syncRecordsProcessed := 0, syncError := none } =
      { status := 401, recordsFetched := none, recordsInserted := none,
        db := { transactions := [], statistics := [], syncStatus := "pending",
                syncRecordsProcessed := 0, syncError := none }, dbOps := [] } :=
  unauthorized_rejected { cfCron := none, secret := some "wrong" } true
    (fun _ => PageResult.httpError 500) "2025-04" "2025-04"
    { transactions := [], statistics := [], syncStatus := "pending",
      syncRecordsProcessed := 0, syncError := none } (by decide)

theorem collectFrom_cons (fetch : ℕ → PageResult) (filterDate : String) (k i : ℕ) (hki : k < i) :
    collectFrom fetch filterDate k i =
      pageFiltered fetch filterDate k ++ collectFrom fetch filterDate (k + 1) i := by
  unfold collectFrom
  have h1 : i - k = (i - (k + 1)) + 1 := by omega
  rw [h1, List.range'_succ]
  simp [List.flatMap]

theorem collectFrom_self (fetch : ℕ → PageResult) (filterDate : String) (k : ℕ) :
    collectFrom fetch filterDate k k = [] := by
  unfold collectFrom
  simp

theorem fetchLoop_rateLimit (fetch : ℕ → PageResult) (filterDate : String) (i : ℕ)
    (hi : fetch i = PageResult.httpError 429) (hcap : i < 50) :
    ∀ k acc, k ≤ i → (∀ j, k ≤ j → j < i → fullOkPage fetch filterDate j) →
      fetchLoop fetch filterDate k acc =
        (acc ++ collectFrom fetch filterDate k i, StopReason.rateLimited) := by
  suffices H : ∀ d k acc, i - k = d → k ≤ i →
      (∀ j, k ≤ j → j < i → fullOkPage fetch filterDate j) →
      fetchLoop fetch filterDate k acc =
        (acc ++ collectFrom fetch filterDate k i, StopReason.rateLimited) by
    exact fun k acc hk hfull => H (i - k) k acc rfl hk hfull
  intro d
  induction d with
  | zero =>
    intro k acc hd hk _
    have hki : k = i := by omega
    subst hki
    have hguard : 1000 * k < 200000 := by omega
    rw [fetchLoop]
    rw [if_pos hguard, hi]
    simp [collectFrom_self]
  | succ d ih =>
    intro k acc hd hk hfull
    have hki : k < i := by omega
    obtain ⟨records, hpage, hlen, hnew⟩ := hfull k (le_refl k) hki
    have hne : records ≠ [] := fun hnil => by subst hnil; simp at hlen
    obtain ⟨hd1, tl, hrec⟩ := List.exists_cons_of_ne_nil hne
    have hguard : 1000 * k < 200000 := by omega
    rw [fetchLoop]
    rw [if_pos hguard, hpage]
    have hemp : records.isEmpty = false := by rw [hrec]; rfl
    have hmonth : headMonth records = hd1.month := by rw [hrec]; rfl
    have hgehd : strGeB hd1.month filterDate = true := by
      rw [strGeB, ← hmonth, hnew]; rfl
    have hfilter : records.filter (fun r => strGeB r.month filterDate) =
        hd1 :: tl.filter (fun r => strGeB r.month filterDate) := by
      rw [hrec, List.filter_cons]
      simp [hgehd]
    simp only [hemp, Bool.not_false, Bool.and_self, if_true, hnew, Bool.false_eq_true, if_false,
      hfilter]
    rw [if_neg (not_lt.mpr hlen)]
    have hnonempty : ((acc ++ (hd1 :: tl.filter fun r => strGeB r.month filterDate)).isEmpty &&
        decide (5000 < 1000 * (k + 1))) = false := by
      have : acc ++ (hd1 :: tl.filter fun r => strGeB r.month filterDate) ≠ [] := by simp
      rw [List.isEmpty_eq_false.mpr this, Bool.false_and]
    rw [if_neg (by rw [hnonempty]; exact Bool.false_ne_true)]
    rw [dif_neg (by omega : ¬ 50 ≤ k + 1)]
    rw [ih (k + 1) (acc ++ (hd1 :: tl.filter fun r => strGeB r.month filterDate)) (by omega)
      (by omega) (fun j hj hji => hfull j (by omega) hji)]
    rw [collectFrom_cons fetch filterDate k i hki]
    have hpf : pageFiltered fetch filterDate k =
        hd1 :: tl.filter (fun r => strGeB r.month filterDate) := by
      rw [pageFiltered, hpage]
      exact hfilter
    rw [hpf, List.append_assoc]

/-- C4: when page i of the upstream feed answers 429 after i full
relevant pages, the fetch loop soft-stops with reason rateLimited and
keeps the filtered records of pages 0..i-1; the handler then completes
normally: HTTP 200, sync state completed (not failed), and the records
fetched before the rate limit are inserted. -/
theorem rateLimit_soft_stop (fetch : ℕ → PageResult) (filterDate : String) (i : ℕ)
    (hi : fetch i = PageResult.httpError 429) (hcap : i < 50)
    (hfull : ∀ j, j < i → fullOkPage fetch filterDate j) :
    syncFetch fetch filterDate = (collectFrom fetch filterDate 0 i, StopReason.rateLimited) ∧
    ∀ req dbConfigured defaultMonth statsCutoff db,
      cronAuthorized req = true → dbConfigured = true →
      computeWatermark (maxMonth (db.transactions.map fun r => r.month)) defaultMonth = filterDate →
      (cronGET req dbConfigured fetch defaultMonth statsCutoff db).status = 200 ∧
      (cronGET req dbConfigured fetch defaultMonth statsCutoff db).db.syncStatus = "completed" ∧
      (cronGET req dbConfigured fetch defaultMonth statsCutoff db).db.transactions =
        (insertAll db.transactions (collectFrom fetch filterDate 0 i)).1 ∧
      (cronGET req dbConfigured fetch defaultMonth statsCutoff db).recordsInserted =
        some (insertAll db.transactions (collectFrom fetch filterDate 0 i)).2 := by
  have hsync : syncFetch fetch filterDate =
      (collectFrom fetch filterDate 0 i, StopReason.rateLimited) := by
    have h0 := fetchLoop_rateLimit fetch filterDate i hi hcap 0 [] (Nat.zero_le i)
      (fun j _ hj => hfull j hj)
    simpa [syncFetch] using h0
  refine ⟨hsync, ?_⟩
  intro req dbc dm sc db hauth hdbc hw
  simp only [cronGET, hauth, hdbc, Bool.not_true, Bool.false_eq_true, if_false, hw, hsync]
  simp

/-- Witness for C4: a stream that is rate-limited on its very first
page; the sync completes with the empty record set preserved. -/
theorem rateLimit_soft_stop_witness :
    syncFetch (fun _ => PageResult.httpError 429) "2025-04" = ([], StopReason.rateLimited) ∧
    (cronGET { cfCron := some "true", secret := none } true (fun _ => PageResult.httpError 429)
      "2025-04" "2025-04"
      { transactions := [], statistics := [], syncStatus := "pending",
        syncRecordsProcessed := 0, syncError := none }).db.syncStatus = "completed" ∧
    (cronGET { cfCron := some "true", secret := none } true (fun _ => PageResult.httpError 429)
      "2025-04" "2025-04"
      { transactions := [], statistics := [], syncStatus := "pending",
        syncRecordsProcessed := 0, syncError := none }).status = 200 := by
  have h := rateLimit_soft_stop (fun _ => PageResult.httpError 429) "2025-04" 0 rfl (by norm_num)
    (fun j hj => absurd hj (Nat.not_lt_zero j))
  have h2 := h.2 { cfCron := some "true", secret := none } true "2025-04" "2025-04"
    { transactions := [], statistics := [], syncStatus := "pending",
      syncRecordsProcessed := 0, syncError := none } (by decide) rfl rfl
  exact ⟨h.1, h2.2.1, h2.1⟩

theorem fetchLoop_graceful (fetch : ℕ → PageResult) (filterDate : String) (hwf : wellFormed fetch) :
    ∀ d k acc, 50 - k = d → k < 50 →
      ∃ i, k ≤ i ∧ i < 50 ∧ claimStop fetch filterDate i ∧
        (∀ j, k ≤ j → j < i → ¬ claimStop fetch filterDate j) ∧
        (fetchLoop fetch filterDate k acc).2.isGraceful = true ∧
        ((fetchLoop fetch filterDate k acc).1 = acc ++ collectFrom fetch filterDate k i ∨
         (fetchLoop fetch filterDate k acc).1 = acc ++ collectFrom fetch filterDate k (i + 1)) := by
  intro d
  induction d with
  | zero => intro k acc hd hk; omega
  | succ d ih =>
    intro k acc hd hk
    have hguard : 1000 * k < 200000 := by omega
    have hmintriv : ∀ j, k ≤ j → j < k → ¬ claimStop fetch filterDate j :=
      fun j hj hji => absurd (lt_of_le_of_lt hj hji) (lt_irrefl k)
    rcases hwf k with h429 | ⟨records, hpage⟩
    · have hloop : fetchLoop fetch filterDate k acc = (acc, StopReason.rateLimited) := by
        rw [fetchLoop]
        rw [if_pos hguard, h429]
        simp
      refine ⟨k, le_refl k, hk, Or.inl h429, hmintriv, by rw [hloop]; rfl, Or.inl ?_⟩
      rw [hloop, collectFrom_self]
      simp
    · by_cases hempty : records = []
      · subst hempty
        have hloop : fetchLoop fetch filterDate k acc = (acc, StopReason.emptyPage) := by
          rw [fetchLoop]
          rw [if_pos hguard, hpage]
          simp
        refine ⟨k, le_refl k, hk, Or.inr (Or.inl ⟨true, [], hpage, by norm_num⟩), hmintriv,
          by rw [hloop]; rfl, Or.inl ?_⟩
        rw [hloop, collectFrom_self]
        simp
      · obtain ⟨hd1, tl, hrec⟩ := List.exists_cons_of_ne_nil hempty
        have hempF : records.isEmpty = false := by rw [hrec]; rfl
        by_cases hnew : strLtB (headMonth records) filterDate = true
        · have hloop : fetchLoop fetch filterDate k acc =
              (acc ++ records.filter (fun r => strGeB r.month filterDate),
                StopReason.newestTooOld) := by
            rw [fetchLoop]
            rw [if_pos hguard, hpage]
            simp only [hempF, Bool.not_false, Bool.and_self, if_true, hnew]
          refine ⟨k, le_refl k, hk, Or.inr (Or.inr (Or.inl ⟨true, records, hpage, hnew⟩)),
            hmintriv, by rw [hloop]; rfl, Or.inr ?_⟩
          rw [hloop, collectFrom_cons fetch filterDate k (k + 1) (by omega), collectFrom_self]
          simp [pageFiltered, pageRecords, hpage]
        · replace hnew : strLtB (headMonth records) filterDate = false := by simpa using hnew
          by_cases hshort : records.length < 1000
          · have hloop : fetchLoop fetch filterDate k acc =
                (acc ++ records.filter (fun r => strGeB r.month filterDate),
                  StopReason.shortPage) := by
              rw [fetchLoop]
              rw [if_pos hguard, hpage]
              simp only [hempF, Bool.not_false, Bool.and_self, if_true, hnew,
                Bool.false_eq_true, if_false]
              rw [if_pos hshort]
            refine ⟨k, le_refl k, hk, Or.inr (Or.inl ⟨true, records, hpage, hshort⟩),
              hmintriv, by rw [hloop]; rfl, Or.inr ?_⟩
            rw [hloop, collectFrom_cons fetch filterDate k (k + 1) (by omega), collectFrom_self]
            simp [pageFiltered, pageRecords, hpage]
          · have hlen : 1000 ≤ records.length := not_lt.mp hshort
            have hmonth : headMonth records = hd1.month := by rw [hrec]; rfl
            have hgehd : strGeB hd1.month filterDate = true := by
              rw [strGeB, ← hmonth, hnew]; rfl
            have hfilter : records.filter (fun r => strGeB r.month filterDate) =
                hd1 :: tl.filter (fun r => strGeB r.month filterDate) := by
              rw [hrec, List.filter_cons]
              simp [hgehd]
            have hnonempty : ((acc ++ records.filter fun r => strGeB r.month filterDate).isEmpty &&
                decide (5000 < 1000 * (k + 1))) = false := by
              have hne2 : acc ++ (records.filter fun r => strGeB r.month filterDate) ≠ [] := by
                rw [hfilter]; simp
              rw [List.isEmpty_eq_false.mpr hne2, Bool.false_and]
            by_cases hcap : 50 ≤ k + 1
            · have hloop : fetchLoop fetch filterDate k acc =
                  (acc ++ records.filter (fun r => strGeB r.month filterDate),
                    StopReason.pageCap) := by
                rw [fetchLoop]
                rw [if_pos hguard, hpage]
                simp only [hempF, Bool.not_false, Bool.and_self, if_true, hnew,
                  Bool.false_eq_true, if_false]
                rw [if_neg (not_lt.mpr hlen)]
                rw [if_neg (by rw [hnonempty]; exact Bool.false_ne_true)]
                rw [dif_pos hcap]
              refine ⟨k, le_refl k, hk, Or.inr (Or.inr (Or.inr hcap)),
                hmintriv, by rw [hloop]; rfl, Or.inr ?_⟩
              rw [hloop, collectFrom_cons fetch filterDate k (k + 1) (by omega), collectFrom_self]
              simp [pageFiltered, pageRecords, hpage]
            · have hstep : fetchLoop fetch filterDate k acc =
                  fetchLoop fetch filterDate (k + 1)
                    (acc ++ records.filter (fun r => strGeB r.month filterDate)) := by
                rw [fetchLoop]
                rw [if_pos hguard, hpage]
                simp only [hempF, Bool.not_false, Bool.and_self, if_true, hnew,
                  Bool.false_eq_true, if_false]
                rw [if_neg (not_lt.mpr hlen)]
                rw [if_neg (by rw [hnonempty]; exact Bool.false_ne_true)]
                rw [dif_neg hcap]
              obtain ⟨i, hki, hi50, hstop, hmin, hgrace, hrec2⟩ :=
                ih (k + 1) (acc ++ records.filter fun r => strGeB r.month filterDate)
                  (by omega) (by omega)
              have hnotk : ¬ claimStop fetch filterDate k := by
                intro hcs
                rcases hcs with h1 | ⟨s, recs, heq2, hlt2⟩ | ⟨s, recs, heq2, hlt2⟩ | h4
                · exact absurd (hpage.symm.trans h1) (by simp)
                · have hinj := hpage.symm.trans heq2
                  injection hinj with hs hr
                  subst hr
                  omega
                · have hinj := hpage.symm.trans heq2
                  injection hinj with hs hr
                  subst hr
                  rw [hnew] at hlt2
                  exact Bool.false_ne_true hlt2
                · exact hcap h4
              refine ⟨i, by omega, hi50, hstop, ?_, by rw [hstep]; exact hgrace, ?_⟩
              · intro j hj hji
                rcases eq_or_lt_of_le hj with heq | hlt
                · subst heq
                  exact hnotk
                · exact hmin j hlt hji
              · rcases hrec2 with hA | hB
                · left
                  rw [hstep, hA, collectFrom_cons fetch filterDate k i (by omega)]
                  rw [← List.append_assoc]
                  simp [pageFiltered, pageRecords, hpage]
                · right
                  rw [hstep, hB, collectFrom_cons fetch filterDate k (i + 1) (by omega)]
                  rw [← List.append_assoc]
                  simp [pageFiltered, pageRecords, hpage]

/-- C7: the page loop is a total function (its recursion is bounded by
the 50-page cap), and on any upstream stream free of hard HTTP failures
it stops exactly at the first page index satisfying one of the four
specified conditions — 429, short page, newest month older than the
watermark, or the safety cap — with one of the corresponding graceful
stop reasons, having consumed precisely the filtered records of the
pages up to (and, for the conditions observed after the page is
processed, including) the stopping page. -/
theorem loop_terminates_at_first_stop (fetch : ℕ → PageResult) (filterDate : String)
    (hwf : wellFormed fetch) :
    ∃ i, i < 50 ∧ claimStop fetch filterDate i ∧
      (∀ j, j < i → ¬ claimStop fetch filterDate j) ∧
      (syncFetch fetch filterDate).2.isGraceful = true ∧
      ((syncFetch fetch filterDate).1 = collectFrom fetch filterDate 0 i ∨
       (syncFetch fetch filterDate).1 = collectFrom fetch filterDate 0 (i + 1)) := by
  obtain ⟨i, _, hi50, hstop, hmin, hgrace, hrec⟩ :=
    fetchLoop_graceful fetch filterDate hwf 50 0 [] rfl (by norm_num)
  refine ⟨i, hi50, hstop, fun j hj => hmin j (Nat.zero_le j) hj, hgrace, ?_⟩
  simpa [syncFetch] using hrec

/-- Witness for C7: the all-empty-pages stream is well formed, and the
loop stops at page 0. -/
theorem loop_terminates_witness :
    wellFormed (fun _ => PageResult.page true []) ∧
    (∃ i, i < 50 ∧ claimStop (fun _ => PageResult.page true []) "2025-04" i ∧
      (∀ j, j < i → ¬ claimStop (fun _ => PageResult.page true []) "2025-04" j) ∧
      (syncFetch (fun _ => PageResult.page true []) "2025-04").2.isGraceful = true ∧
      ((syncFetch (fun _ => PageResult.page true []) "2025-04").1 =
        collectFrom (fun _ => PageResult.page true []) "2025-04" 0 i ∨
       (syncFetch (fun _ => PageResult.page true []) "2025-04").1 =
        collectFrom (fun _ => PageResult.page true []) "2025-04" 0 (i + 1))) :=
  have hwf : wellFormed (fun _ => PageResult.page true []) := fun _ => Or.inr ⟨[], rfl⟩
  ⟨hwf, loop_terminates_at_first_stop (fun _ => PageResult.page true []) "2025-04" hwf⟩
